import Mathlib

/-!
Shallow embedding of the movie ETL pipeline (sprint1 practice repository)
and proofs about its transform and bulk-load behaviour.

The repository ships three variants of the ETL core:
  * `etl_author.py`            — namespace `Author` below;
  * `etl_classy.py`            — namespace `Classy` below (its `ESLoader.load_to_es`
                                  is byte-for-byte the one in `etl/esloader.py`);
  * `etl/extractor.py` + `etl/esloader.py` — namespace `Extr` below.

Python strings become `String`, Python `None` for optional inputs becomes
`Option`, and code paths that can raise become `Except PyErr`.
-/

namespace MovieEtl

/-- Models the Python exception classes that the embedded code paths can raise:
`ValueError` from `float(...)`, `KeyError` from a dict lookup, and the
`json.JSONDecodeError` family from `json.loads`. -/
inductive PyErr where
  | valueError
  | keyError
  | jsonError
  deriving Repr, DecidableEq

/-- Numeric value of a list of decimal digit characters, most significant first. -/
def natOfDigits (cs : List Char) : Nat :=
  cs.foldl (fun acc c => 10 * acc + (c.toNat - 48)) 0

/-- Models the Python builtin `float(s)` on the plain decimal literals that occur
in the `imdb_rating` column: an optional sign, then digits with at most one
decimal point and at least one digit overall.  Returns `none` exactly when
`float` would raise `ValueError` on such input.  Exponent, infinity and nan
forms do not occur in this data and are out of the model's scope; the value is
kept exact as a rational instead of an IEEE float. -/
def parsePyFloat (s : String) : Option ℚ :=
  let cs := s.data
  let signAndRest : ℚ × List Char :=
    match cs with
    | '-' :: rest => (-1, rest)
    | '+' :: rest => (1, rest)
    | _ => (1, cs)
  let sign := signAndRest.1
  let body := signAndRest.2
  let intDigits := body.takeWhile Char.isDigit
  let afterInt := body.dropWhile Char.isDigit
  match afterInt with
  | [] =>
    if intDigits.isEmpty then none
    else some (sign * (natOfDigits intDigits : ℚ))
  | '.' :: rest =>
    let fracDigits := rest.takeWhile Char.isDigit
    let afterFrac := rest.dropWhile Char.isDigit
    if afterFrac.isEmpty ∧ ¬ (intDigits.isEmpty ∧ fracDigits.isEmpty) then
      some (sign * ((natOfDigits intDigits : ℚ)
        + (natOfDigits fracDigits : ℚ) / (10 : ℚ) ^ fracDigits.length))
    else none
  | _ => none

/-- JSON whitespace characters. -/
def isJsonWs (c : Char) : Bool :=
  c = ' ' ∨ c = '\t' ∨ c = '\n' ∨ c = '\r'

/-- Drop leading JSON whitespace. -/
def skipWs (cs : List Char) : List Char :=
  cs.dropWhile isJsonWs

/-- The opening-brace character, by code point. -/
def lbrace : Char := Char.ofNat 123

/-- The closing-brace character, by code point. -/
def rbrace : Char := Char.ofNat 125

/-- Parse one JSON string literal `"..."`; escape sequences are out of scope
(writer ids in this data contain neither quotes nor backslashes). -/
def parseJsonStr : List Char → Option (String × List Char)
  | '"' :: rest =>
    let body := rest.takeWhile (· ≠ '"')
    (match rest.dropWhile (· ≠ '"') with
     | '"' :: rest2 => some (String.mk body, rest2)
     | _ => none)
  | _ => none

/-- Parse one writer object, an object with the single key `id` and a string
value, returning that value. -/
def parseIdObj (cs : List Char) : Option (String × List Char) :=
  match skipWs cs with
  | c :: rest =>
    if c = lbrace then
      match parseJsonStr (skipWs rest) with
      | some (k, rest2) =>
        if k = "id" then
          match skipWs rest2 with
          | ':' :: rest3 =>
            (match parseJsonStr (skipWs rest3) with
             | some (v, rest4) =>
               (match skipWs rest4 with
                | c2 :: rest5 => if c2 = rbrace then some (v, rest5) else none
                | [] => none)
             | none => none)
          | _ => none
        else none
      | none => none
    else none
  | [] => none

/-- Parse the comma-separated writer objects after the opening `[`, up to and
including the closing `]`.  The first argument is recursion fuel; one unit is
spent per array element, so any fuel at least the element count suffices. -/
def parseIdItems : Nat → List Char → Option (List String × List Char)
  | 0, _ => none
  | fuel + 1, cs =>
    match parseIdObj cs with
    | some (v, rest) =>
      (match skipWs rest with
       | ',' :: rest2 =>
         (match parseIdItems fuel rest2 with
          | some (vs, rest3) => some (v :: vs, rest3)
          | none => none)
       | ']' :: rest2 => some ([v], rest2)
       | _ => none)
    | none => none

/-- Models `json.loads` on the shape the ETL code consumes from the `writers`
column: a JSON array of objects each carrying a string `id` property
(for example `[{"id": "nm0905152"}, {"id": "nm0456158"}]`).  Returns the list
of ids in order; `none` models the `json.JSONDecodeError` (or the `KeyError`
on a missing `id` key) that `json.loads(...)` / `element['id']` would raise. -/
def parseIdList (s : String) : Option (List String) :=
  match skipWs s.data with
  | '[' :: rest =>
    (match skipWs rest with
     | ']' :: rest2 => if (skipWs rest2).isEmpty then some [] else none
     | _ =>
       (match parseIdItems (s.length + 1) rest with
        | some (vs, rest2) => if (skipWs rest2).isEmpty then some vs else none
        | none => none))
  | _ => none

/-- Worker for `pySplit`: walk the character list, cutting at each
non-overlapping occurrence of the separator.  The fuel argument only bounds
recursion; one unit is spent per consumed character, so `length + 1` fuel is
always enough. -/
def pySplitGo (sep : List Char) : Nat → List Char → List Char → List (List Char)
  | 0, acc, _ => [acc.reverse]
  | _ + 1, acc, [] => [acc.reverse]
  | fuel + 1, acc, c :: rest =>
    if sep.isPrefixOf (c :: rest) then
      acc.reverse :: pySplitGo sep fuel [] ((c :: rest).drop sep.length)
    else
      pySplitGo sep fuel (c :: acc) rest

/-- Models the Python method `s.split(sep)` for a non-empty separator: split
at each left-to-right non-overlapping occurrence of `sep`; adjacent or
trailing separators yield empty elements, and a separator-free string yields
the one-element list `[s]`. -/
def pySplit (s sep : String) : List String :=
  (pySplitGo sep.data (s.data.length + 1) [] s.data).map String.mk

/-- Worker for `pyReplace`, with the same fuel convention as `pySplitGo`. -/
def pyReplaceGo (old new : List Char) : Nat → List Char → List Char
  | 0, s => s
  | _ + 1, [] => []
  | fuel + 1, c :: rest =>
    if old.isPrefixOf (c :: rest) then
      new ++ pyReplaceGo old new fuel ((c :: rest).drop old.length)
    else
      c :: pyReplaceGo old new fuel rest

/-- Models the Python method `s.replace(old, new)` for non-empty `old`:
replace every left-to-right non-overlapping occurrence. -/
def pyReplace (s old new : String) : String :=
  String.mk (pyReplaceGo old.data new.data (s.data.length + 1) s.data)

mutual
/-- The fragment of JSON values that the embedded bulk-load calls serialize:
null, strings, arrays and objects (Python dicts, which preserve insertion
order). -/
inductive Json where
  | null
  | str (s : String)
  | arr (elems : JList)
  | obj (fields : JFields)

/-- Spine of a JSON array. -/
inductive JList where
  | nil
  | cons (head : Json) (tail : JList)

/-- Ordered key/value fields of a JSON object. -/
inductive JFields where
  | nil
  | cons (key : String) (val : Json) (tail : JFields)
end

mutual
/-- Models `json.dumps` with its default separators `', '` and `': '` on the
fragment above.  String escaping is out of scope: the ids, titles and index
names of this data set contain neither quotes nor backslashes. -/
def Json.dumps : Json → String
  | .null => "null"
  | .str s => "\"" ++ s ++ "\""
  | .arr es => "[" ++ String.intercalate ", " (JList.dumps es) ++ "]"
  | .obj fs =>
    String.singleton lbrace ++ String.intercalate ", " (JFields.dumps fs)
      ++ String.singleton rbrace

/-- Serializations of the elements of a JSON array, in order. -/
def JList.dumps : JList → List String
  | .nil => []
  | .cons j tail => Json.dumps j :: JList.dumps tail

/-- Serializations `"key": value` of the fields of a JSON object, in order. -/
def JFields.dumps : JFields → List String
  | .nil => []
  | .cons k v tail => ("\"" ++ k ++ "\": " ++ Json.dumps v) :: JFields.dumps tail
end

/-- First value bound to `key` in an ordered field list; `KeyError` when absent. -/
def JFields.find : JFields → String → Except PyErr Json
  | .nil, _ => .error .keyError
  | .cons k v tail, key => if k = key then .ok v else JFields.find tail key

/-- Models the Python subscript `row[key]` on a dict value: the bound value, or
`KeyError` when the key is absent (the bulk code only ever subscripts dicts). -/
def pyGetItem (j : Json) (key : String) : Except PyErr Json :=
  match j with
  | .obj fs => JFields.find fs key
  | _ => .error .keyError

/-- The null-sentinel tuple `NONE_PATTERNS = ('N/A', '')` of `etl/extractor.py`. -/
def NONE_PATTERNS : List String := ["N/A", ""]

namespace Extr

/-- Models `ETL._transform_value` of `etl/extractor.py`:
`if raw_value not in NONE_PATTERNS: return raw_value` (implicitly `None` otherwise). -/
def transform_value (raw_value : String) : Option String :=
  if raw_value ∈ MovieEtl.NONE_PATTERNS then none else some raw_value

/-- Person dict `{'id': ..., 'name': ...}` as built by `_get_actors` and
`_get_writers` of `etl/extractor.py`: both fields have already passed
`_transform_value`, hence are optional. -/
structure Person where
  id : Option String
  name : Option String
  deriving Repr, DecidableEq

/-- Raw movie row of `MOVIES_QUERY`, tuple columns in source order:
id, imdb_rating, genre, title, plot-as-description, director, writer, writers.
A SQL NULL in the writer columns is modelled as the empty string, which is how
the code's falsy checks treat it. -/
structure Row where
  id : String
  imdb_rating : String
  genre : String
  title : String
  description : String
  director : String
  writer : String
  writers : String
  deriving Repr, DecidableEq

/-- Models `ETL._get_actors` applied to the rows that `ACTORS_QUERY` returns
for the movie (pairs of actor id and name, ordered by actor id): every row is
appended to both lists after `_transform_value`, and the final
`if actors and actors_names: ... return None, None` turns a pair of empty
lists into a pair of Nones. -/
def get_actors (actor_rows : List (String × String)) :
    Option (List Person) × Option (List (Option String)) :=
  let actors := actor_rows.map
    (fun r => Person.mk (transform_value r.1) (transform_value r.2))
  let actors_names := actor_rows.map (fun r => transform_value r.2)
  if ¬ actors.isEmpty ∧ ¬ actors_names.isEmpty then (some actors, some actors_names)
  else (none, none)

/-- Models `ETL._get_filter_on_writers`: `[writer]` when the scalar `writer`
field is truthy (non-empty), else the ids of the parsed `writers` JSON when
that field is truthy, else the empty list.  A `json.loads` failure
propagates as an exception. -/
def get_filter_on_writers (writer : String) (writers : String) :
    Except PyErr (List String) :=
  if writer ≠ "" then .ok [writer]
  else if writers ≠ "" then
    match parseIdList writers with
    | some ids => .ok ids
    | none => .error .jsonError
  else .ok []

/-- Models executing `WRITERS_QUERY` (`SELECT DISTINCT id, name FROM writers
WHERE id IN (...)`, placeholders substituted per filter element) against the
writers table: the rows whose id is in the filter, in table order with later
duplicate rows removed (the query has no ORDER BY; sqlite accepts an empty IN
list and then returns no rows). -/
def queryWriters (db : List (String × String)) (filterIds : List String) :
    List (String × String) :=
  (db.filter (fun r => filterIds.contains r.1)).eraseDups

/-- Result of one `ETL._get_writers` call, together with the parameter lists of
the writer-lookup queries that the call executed — the source runs exactly one
`cursor.execute(WRITERS_QUERY..., filter_on_writers)` per call,
unconditionally. -/
structure WritersFetch where
  writers : Option (List Person)
  writers_names : Option (List (Option String))
  executedQueries : List (List String)
  deriving Repr, DecidableEq

/-- Models `ETL._get_writers`: resolve the filter, execute the lookup query,
append every returned row (after `_transform_value`) to both lists, and return
`None, None` when the lists are empty. -/
def get_writers (db : List (String × String)) (writer : String)
    (writersArg : String) : Except PyErr WritersFetch := do
  let filter_on_writers ← get_filter_on_writers writer writersArg
  let rows := queryWriters db filter_on_writers
  let ws := rows.map (fun r => Person.mk (transform_value r.1) (transform_value r.2))
  let writers_names := rows.map (fun r => transform_value r.2)
  if ¬ ws.isEmpty ∧ ¬ writers_names.isEmpty then
    pure ⟨some ws, some writers_names, [filter_on_writers]⟩
  else
    pure ⟨none, none, [filter_on_writers]⟩

/-- Models the expression `None if row[1] in NONE_PATTERNS else float(row[1])`
of `ETL._transform_data`: a raised `ValueError` becomes the error case. -/
def rating_of (raw : String) : Except PyErr (Option ℚ) :=
  if raw ∈ MovieEtl.NONE_PATTERNS then .ok none
  else
    match parsePyFloat raw with
    | some q => .ok (some q)
    | none => .error .valueError

/-- The document dict built by `ETL._transform_data` of `etl/extractor.py`. -/
structure Doc where
  id : Option String
  genre : Option (List String)
  writers : Option (List Person)
  actors : Option (List Person)
  writers_names : Option (List (Option String))
  actors_names : Option (List (Option String))
  imdb_rating : Option ℚ
  title : Option String
  director : Option (List String)
  description : Option String
  deriving Repr, DecidableEq

/-- Models `ETL._transform_data` on one raw movie row, given the actor
sub-rows its `ACTORS_QUERY` returns and the writers table.  `_transform_value`
never yields an empty string (the empty string is a sentinel), so the guards
`genre.split(', ') if genre else None` and its director twin are exactly an
`Option.map`. -/
def transform_data (db : List (String × String)) (row : Row)
    (actor_rows : List (String × String)) : Except PyErr Doc := do
  let movie_id := transform_value row.id
  let actorsPair := get_actors actor_rows
  let wf ← get_writers db row.writer row.writers
  let genre := transform_value row.genre
  let director := transform_value row.director
  let imdb ← rating_of row.imdb_rating
  pure {
    id := movie_id
    genre := genre.map (fun g => pySplit g ", ")
    writers := wf.writers
    actors := actorsPair.1
    writers_names := wf.writers_names
    actors_names := actorsPair.2
    imdb_rating := imdb
    title := transform_value row.title
    director := director.map (fun d => pySplit d ", ")
    description := transform_value row.description }

/-- Models `ETL._extract_movies`: transform every movie row in query order,
appending to one list; an exception raised for any row aborts the whole loop
(there is no try/except anywhere on this path). -/
def extract_movies (db : List (String × String))
    (rows : List (Row × List (String × String))) : Except PyErr (List Doc) :=
  rows.mapM (fun rc => transform_data db rc.1 rc.2)

end Extr

namespace Author

/-- Writer row `{'id': ..., 'name': ...}` as stored by
`ETL.load_writers_names` of `etl_author.py` and appended verbatim to
`movie_writers`; also the actor dicts built by `_transform_row`. -/
structure Person where
  id : String
  name : String
  deriving Repr, DecidableEq

/-- Raw row of the author variant's SQL.  The CASE expression in the query has
already normalized the writers column, so `writers` is always JSON text here;
the group_concat columns `actors_ids` / `actors_names` are SQL NULL when the
movie has no actors. -/
structure Row where
  id : String
  genre : String
  director : String
  title : String
  plot : String
  imdb_rating : String
  actors_ids : Option String
  actors_names : Option String
  writers : String
  deriving Repr, DecidableEq

/-- Models a lookup in the dict built by `ETL.load_writers_names`
(writer id → writer row).  The id is the writers table's primary key, so the
DISTINCT rows carry one entry per id and first match equals dict lookup. -/
def lookupWriter (table : List Person) (writer_id : String) : Option Person :=
  table.find? (fun p => p.id = writer_id)

/-- Models the writer-enrichment loop of `ETL._transform_row`:

```
for writer in json.loads(row['writers']):
    writer_id = writer['id']
    if writers[writer_id]['name'] != 'N/A' and writer_id not in writers_set:
        movie_writers.append(writers[writer_id])
        writers_set.add(writer_id)
```

Python evaluates the subscript `writers[writer_id]` before the set-membership
test, so a dangling id raises `KeyError` even when the id was seen before. -/
def buildMovieWriters (table : List Person) :
    List String → List String → List Person → Except PyErr (List Person)
  | [], _, acc => .ok acc.reverse
  | writer_id :: rest, seen, acc =>
    match lookupWriter table writer_id with
    | none => .error .keyError
    | some w =>
      if w.name ≠ "N/A" ∧ ¬ seen.contains writer_id then
        buildMovieWriters table rest (writer_id :: seen) (w :: acc)
      else
        buildMovieWriters table rest seen acc

/-- The `movie_writers` list for a parsed id list, from empty accumulators. -/
def movieWriters (table : List Person) (ids : List String) :
    Except PyErr (List Person) :=
  buildMovieWriters table ids [] []

/-- Models the expression
`float(row['imdb_rating']) if row['imdb_rating'] != 'N/A' else None` of
`ETL._transform_row` in `etl_author.py`.  Only `'N/A'` is guarded here: an
empty-string rating reaches `float('')`, which raises `ValueError`. -/
def rating_of (raw : String) : Except PyErr (Option ℚ) :=
  if raw ≠ "N/A" then
    match parsePyFloat raw with
    | some q => Except.ok (some q)
    | none => Except.error PyErr.valueError
  else Except.ok none

/-- The document dict built by `ETL._transform_row` of `etl_author.py`.  The
list-valued fields are plain lists: this variant never replaces an empty list
by `None`. -/
structure Doc where
  id : String
  genre : List String
  writers : List Person
  actors : List Person
  actors_names : List String
  writers_names : List String
  imdb_rating : Option ℚ
  title : String
  director : Option (List String)
  description : Option String
  deriving Repr, DecidableEq

/-- Models `ETL._transform_row` of `etl_author.py` on one row, given the
preloaded writers dict. -/
def transform_row (row : Row) (table : List Person) : Except PyErr Doc := do
  let ids ← match parseIdList row.writers with
    | some l => Except.ok l
    | none => Except.error PyErr.jsonError
  let movie_writers ← movieWriters table ids
  let actorsPair :=
    match row.actors_ids, row.actors_names with
    | some ids_s, some names_s =>
      (((pySplit ids_s ",").zip (pySplit names_s ",")).filterMap
          (fun (p : String × String) =>
            if p.2 ≠ "N/A" then some (Person.mk p.1 p.2) else none),
        (pySplit names_s ",").filter (fun n => n ≠ "N/A"))
    | _, _ => ([], [])
  let imdb ← rating_of row.imdb_rating
  pure {
    id := row.id
    genre := pySplit (pyReplace row.genre " " "") ","
    writers := movie_writers
    actors := actorsPair.1
    actors_names := actorsPair.2
    writers_names := movie_writers.map Person.name
    imdb_rating := imdb
    title := row.title
    director := if row.director ≠ "N/A" then some (pySplit row.director ",") else none
    description := if row.plot ≠ "N/A" then some row.plot else none }

/-- Models the loop of `ETL.load` up to the bulk call: transform every row in
order, appending to `records`; a raised exception aborts the whole run (there
is no try/except on this path). -/
def transform_all (rows : List Row) (table : List Person) :
    Except PyErr (List Doc) :=
  rows.mapM (fun r => transform_row r table)

/-- Models `ESLoader._get_es_bulk_query` of `etl_author.py`: for each record,
the serialized action-metadata dict
`{'index': {'_index': index_name, '_id': row['id']}}` immediately followed by
the serialized record itself. -/
def get_es_bulk_query (rows : List Json) (index_name : String) :
    Except PyErr (List String) := do
  let pairs ← rows.mapM (fun row => do
    let idv ← pyGetItem row "id"
    pure [Json.dumps (Json.obj (JFields.cons "index"
            (Json.obj (JFields.cons "_index" (Json.str index_name)
              (JFields.cons "_id" idv JFields.nil))) JFields.nil)),
          Json.dumps row])
  pure pairs.flatten

/-- Models the payload construction in `ESLoader.load_to_es` of
`etl_author.py`: `str_query = '\n'.join(prepared_query) + '\n'`. -/
def bulk_payload (rows : List Json) (index_name : String) :
    Except PyErr String := do
  let lines ← get_es_bulk_query rows index_name
  pure (String.intercalate "\n" lines ++ "\n")

/-- The `item['index']` sub-object of one element of the bulk response's
`items` list, reduced to the only field the code reads:
`item['index'].get('error')`. -/
structure ItemIndex where
  error : Option String
  deriving Repr, DecidableEq

/-- One element of the bulk response's `items` list. -/
structure ResponseItem where
  index : ItemIndex
  deriving Repr, DecidableEq

/-- Models the response-handling loop of `ESLoader.load_to_es` of
`etl_author.py`:

```
for item in json_response['items']:
    error_message = item['index'].get('error')
    if error_message:
        logger.error(error_message)
```

Returns the sequence of logged messages, in item order — the only information
this loop retains from the response (a present but empty error is falsy and is
not logged). -/
def process_bulk_response (items : List ResponseItem) : List String :=
  items.filterMap (fun it =>
    match it.index.error with
    | some e => if e ≠ "" then some e else none
    | none => none)

end Author

namespace Classy

/-- Models `ETL._transform_value` of `etl_classy.py`.  The Python guard reads
`if extracted_value != ('N/A' or '')`; the subexpression `('N/A' or '')`
evaluates to the string `'N/A'` (a non-empty string is truthy), so only
`'N/A'` is compared and the empty string passes through. -/
def transform_value (extracted_value : String) : Option String :=
  if extracted_value ≠ "N/A" then some extracted_value else none

/-- Models the expression
`'my_id{index}'.format(index=index if index > 1 else '')` of
`ESLoader.load_to_es` in `etl_classy.py` and `etl/esloader.py`. -/
def bulk_id (index : Nat) : String :=
  "my_id" ++ (if index > 1 then toString index else "")

/-- Models the `indices` list comprehension of that `load_to_es`: one
action-metadata dict per record position `1 .. len(records)`, with `_index`
hard-coded to the string `'movies'` and the synthetic per-run `_id`. -/
def indices (n : Nat) : List Json :=
  (List.range' 1 n).map (fun i =>
    Json.obj (JFields.cons "index"
      (Json.obj (JFields.cons "_index" (Json.str "movies")
        (JFields.cons "_id" (Json.str (bulk_id i)) JFields.nil))) JFields.nil))

/-- Models the payload construction of `load_to_es` in `etl_classy.py` /
`etl/esloader.py`: zip the synthetic indices with the records, serialize each
pair in order, join all lines with newlines and append one trailing newline.
The `index_name` parameter is accepted and then never used, exactly as in the
source; the response of the POST is ignored. -/
def bulk_payload (records : List Json) (index_name : String) : String :=
  let zipped := (indices records.length).zip records
  let preload := zipped.flatMap (fun p => [Json.dumps p.1, Json.dumps p.2])
  String.intercalate "\n" preload ++ "\n"

end Classy

/-! Helper lemmas about the `Except` monad and `mapM`, shared by several
claim proofs. -/

/-- Bind on a successful `Except` computation. -/
theorem ok_bind {ε α β : Type} (a : α) (f : α → Except ε β) :
    (Except.ok a >>= f) = f a := rfl

/-- Bind on a failed `Except` computation. -/
theorem error_bind {ε α β : Type} (e : ε) (f : α → Except ε β) :
    ((Except.error e : Except ε α) >>= f) = Except.error e := rfl

/-- Pure in the `Except` monad is `ok`. -/
theorem pure_ok {ε α : Type} (a : α) :
    (pure a : Except ε α) = Except.ok a := rfl

/-- A loop that maps a fallible step over a list aborts with the first raised
error: when every element before `x` succeeds and `x` raises `e`, the whole
traversal raises `e` — no later element is processed and no partial list of
results survives. -/
theorem mapM_append_error {α β ε : Type} (f : α → Except ε β) (e : ε) :
    ∀ (pre : List α) (x : α) (post : List α),
      (∀ a ∈ pre, ∃ b, f a = Except.ok b) → f x = Except.error e →
      (pre ++ x :: post).mapM f = Except.error e := by
  intro pre
  induction pre with
  | nil =>
    intro x post _ hx
    simp only [List.nil_append, List.mapM_cons, hx, error_bind]
  | cons a as ih =>
    intro x post hpre hx
    obtain ⟨b, hb⟩ := hpre a (List.mem_cons_self a as)
    have hrest := ih x post (fun a ha => hpre a (List.mem_cons_of_mem _ ha)) hx
    simp only [List.cons_append, List.mapM_cons, hb, ok_bind, hrest, error_bind]

/-! Claim theorems. -/

set_option maxRecDepth 20000

/-- A well-formed record (a transformed document reduced to its identifying
fields) used to evaluate both bulk loaders. -/
def sampleRecord1 : Json :=
  Json.obj (JFields.cons "id" (Json.str "tt0001")
    (JFields.cons "title" (Json.str "Alpha") JFields.nil))

/-- A second well-formed record for the bulk loaders. -/
def sampleRecord2 : Json :=
  Json.obj (JFields.cons "id" (Json.str "tt0002")
    (JFields.cons "title" (Json.str "Beta") JFields.nil))

/-- The payload the claim mandates for `sampleRecord1, sampleRecord2` under
index name `films`: per record, a metadata line carrying the given index name
and the record's real id, then the record's serialization, newline-joined and
newline-terminated. -/
def c1ExpectedPayload : String :=
  "\x7b\"index\": \x7b\"_index\": \"films\", \"_id\": \"tt0001\"\x7d\x7d\n"
    ++ "\x7b\"id\": \"tt0001\", \"title\": \"Alpha\"\x7d\n"
    ++ "\x7b\"index\": \x7b\"_index\": \"films\", \"_id\": \"tt0002\"\x7d\x7d\n"
    ++ "\x7b\"id\": \"tt0002\", \"title\": \"Beta\"\x7d\n"

/-- The payload the `etl/esloader.py` / `etl_classy.py` loader actually sends
for the same call: `_index` hard-coded to `movies`, documents keyed by the
synthetic ordinals `my_id`, `my_id2`. -/
def c1ClassyPayload : String :=
  "\x7b\"index\": \x7b\"_index\": \"movies\", \"_id\": \"my_id\"\x7d\x7d\n"
    ++ "\x7b\"id\": \"tt0001\", \"title\": \"Alpha\"\x7d\n"
    ++ "\x7b\"index\": \x7b\"_index\": \"movies\", \"_id\": \"my_id2\"\x7d\x7d\n"
    ++ "\x7b\"id\": \"tt0002\", \"title\": \"Beta\"\x7d\n"

/-- C1: the claimed wire format — per Document an action-metadata line whose
`_index` equals the given index name and whose `_id` equals that Document's
real movie id, immediately followed by the Document's serialization, pairs
concatenated with a trailing newline — holds of the `etl_author.py` loader,
but the `etl/esloader.py` / `etl_classy.py` loader violates it: it hard-codes
`_index` to `'movies'` and keys every document by a synthetic per-run ordinal
(`my_id`, `my_id2`, …), ignoring both its `index_name` argument and the
records' real ids. -/
theorem c1_bulk_identity_bug :
    Author.bulk_payload [sampleRecord1, sampleRecord2] "films"
        = Except.ok c1ExpectedPayload
      ∧ Classy.bulk_payload [sampleRecord1, sampleRecord2] "films" = c1ClassyPayload
      ∧ c1ClassyPayload ≠ c1ExpectedPayload :=
  ⟨rfl, rfl, by decide⟩

/-- C2: the `etl/extractor.py` transform recognizes both null-sentinels
(`"N/A"` and `""`) and passes other scalar values through unchanged, but the
`etl_classy.py` transform recognizes only `"N/A"`: its guard is written
`extracted_value != ('N/A' or '')`, and the Python expression `('N/A' or '')`
evaluates to `'N/A'`, so an extracted empty string passes through unchanged
instead of becoming null. -/
theorem c2_empty_sentinel_bug :
    Extr.transform_value "N/A" = none
      ∧ Extr.transform_value "" = none
      ∧ Extr.transform_value "Action" = some "Action"
      ∧ Classy.transform_value "N/A" = none
      ∧ Classy.transform_value "" = some "" := by
  decide

/-- C5: the `etl_author.py` transform drops a person whose resolved name is
the sentinel, but `ETL._get_writers` of `etl/extractor.py` keeps such a
person: it appends every row returned by the writer query, merely mapping the
sentinel name to null, so the writers list contains a person with a nulled
name (and `writers_names` a null entry) instead of dropping the person; the
actors path behaves the same way. -/
theorem c5_nulled_name_bug :
    Extr.get_writers [("w1", "N/A")] "w1" "" =
        Except.ok ⟨some [Extr.Person.mk (some "w1") none], some [none], [["w1"]]⟩
      ∧ Extr.get_actors [("a1", "N/A")] =
        (some [Extr.Person.mk (some "a1") none], some [none])
      ∧ Author.movieWriters [Author.Person.mk "w1" "N/A"] ["w1"] = Except.ok [] :=
  ⟨rfl, rfl, rfl⟩

/-- The per-document outcomes and aggregate summary that claim C4 asserts the
loader produces from a bulk response.  This definition follows the claim's
words, not the source — it is the refinement target the code's response
handling is compared against. -/
structure ClaimedBulkResult where
  outcomes : List (String × Option String)
  succeeded : Nat
  failed : Nat
  deriving Repr, DecidableEq

/-- Claimed summary of a bulk response for the submitted document ids, per the
claim's words: pair each response item with the submitted id at the same
position, a per-document outcome each, plus success and failure counts. -/
def claimedBulkSummary (ids : List String) (items : List Author.ResponseItem) :
    ClaimedBulkResult :=
  let outcomes := (ids.zip items).map
    (fun (p : String × Author.ResponseItem) => (p.1, p.2.index.error))
  { outcomes := outcomes
    succeeded := (outcomes.filter (fun o => o.2 = none)).length
    failed := (outcomes.filter (fun o => o.2 ≠ none)).length }

/-- A bulk response for three submitted documents failing at item 1. -/
def c4ItemsFirst : List Author.ResponseItem :=
  [⟨⟨some "mapping conflict"⟩⟩, ⟨⟨none⟩⟩, ⟨⟨none⟩⟩]

/-- A bulk response for three submitted documents failing at item 3. -/
def c4ItemsLast : List Author.ResponseItem :=
  [⟨⟨none⟩⟩, ⟨⟨none⟩⟩, ⟨⟨some "mapping conflict"⟩⟩]

/-- A bulk response for three submitted documents failing at item 2 of 3. -/
def c4ItemsMid : List Author.ResponseItem :=
  [⟨⟨none⟩⟩, ⟨⟨some "mapping conflict"⟩⟩, ⟨⟨none⟩⟩]

/-- C4 counterexample: the loader's response handling retains only the logged
error messages.  Two responses for the same three submitted documents — one
failing at item 1, one failing at item 3 — leave the loader in identical
states, while the summary the claim demands must attribute the failure to
different document ids; hence the loader does not map items back to ids by
position and does not produce the claimed per-document outcomes or counts. -/
theorem c4_summary_cex :
    Author.process_bulk_response c4ItemsFirst
        = Author.process_bulk_response c4ItemsLast
      ∧ claimedBulkSummary ["d1", "d2", "d3"] c4ItemsFirst
        ≠ claimedBulkSummary ["d1", "d2", "d3"] c4ItemsLast :=
  ⟨rfl, by decide⟩

/-- C4 amended: the loader parses the response's per-item list and logs, in
item order, exactly the truthy error payloads of the failing items; a
successful item leaves no trace at all (deleting one does not change the
outcome), so no per-document outcome, id attribution or aggregate count is
produced.  For a response failing at item 2 of 3 the retained information is
just that one error message. -/
theorem c4_logging_amended :
    (∀ xs ys : List Author.ResponseItem,
      Author.process_bulk_response (xs ++ (⟨⟨none⟩⟩ : Author.ResponseItem) :: ys)
        = Author.process_bulk_response (xs ++ ys))
      ∧ Author.process_bulk_response c4ItemsMid = ["mapping conflict"] := by
  constructor
  · intro xs ys
    simp [Author.process_bulk_response]
  · rfl

/-- C9 counterexample: for a movie whose scalar `writer` and `writers` fields
are both empty the resolved writer id set is empty, yet `_get_writers` still
executes its lookup query — with an empty parameter list substituted into the
IN clause (legal in sqlite, returning no rows) — instead of issuing no query
at all. -/
theorem c9_query_always_cex :
    Extr.get_filter_on_writers "" "" = Except.ok []
      ∧ Extr.get_writers [("w1", "Bob")] "" "" = Except.ok ⟨none, none, [[]]⟩ :=
  ⟨rfl, rfl⟩

/-- C9 amended: the resolved writer id set is `[writer]` when the scalar
field is non-empty, otherwise the ids parsed from the `writers` JSON, and
empty when both fields are empty; but `_get_writers` executes exactly one
writer-lookup query on every non-raising call, also when the resolved id set
is empty, contrary to the claim's final clause. -/
theorem c9_writer_ids_amended (db : List (String × String))
    (writer writers : String) :
    (writer ≠ "" → Extr.get_filter_on_writers writer writers = Except.ok [writer])
      ∧ (writer = "" → writers ≠ "" → ∀ ids, parseIdList writers = some ids →
          Extr.get_filter_on_writers writer writers = Except.ok ids)
      ∧ (writer = "" → writers = "" →
          Extr.get_filter_on_writers writer writers = Except.ok [])
      ∧ (∀ ids, Extr.get_filter_on_writers writer writers = Except.ok ids →
          (Extr.get_writers db writer writers).map Extr.WritersFetch.executedQueries
            = Except.ok [ids]) := by
  refine ⟨?_, ?_, ?_, ?_⟩
  · intro hw
    simp [Extr.get_filter_on_writers, hw]
  · intro hw hws ids hp
    simp [Extr.get_filter_on_writers, hw, hws, hp]
  · intro hw hws
    simp [Extr.get_filter_on_writers, hw, hws]
  · intro ids h
    unfold Extr.get_writers
    rw [h]
    simp only [ok_bind]
    split
    · rfl
    · rfl

/-- The `writers` JSON used to witness the JSON branch of the C9 theorem. -/
def c9WitnessJson : String :=
  "[\x7b\"id\": \"w1\"\x7d, \x7b\"id\": \"w2\"\x7d]"

/-- Witness for the C9 theorem at concrete inputs: a non-empty scalar writer
resolves to the singleton, that call executes one query, and an empty scalar
with a two-object writers JSON resolves to the two parsed ids. -/
theorem c9_writer_ids_amended_witness :
    Extr.get_filter_on_writers "w9" "" = Except.ok ["w9"]
      ∧ (Extr.get_writers [] "w9" "").map Extr.WritersFetch.executedQueries
        = Except.ok [["w9"]]
      ∧ Extr.get_filter_on_writers "" c9WitnessJson = Except.ok ["w1", "w2"] :=
  ⟨(c9_writer_ids_amended [] "w9" "").1 (by decide),
    (c9_writer_ids_amended [] "w9" "").2.2.2 ["w9"]
      ((c9_writer_ids_amended [] "w9" "").1 (by decide)),
    (c9_writer_ids_amended [] "" c9WitnessJson).2.1 rfl (by decide)
      ["w1", "w2"] (by decide)⟩

/-- A movie row whose genre is `"Action,Horror"` — comma with no following
space — and whose other optional fields are sentinels. -/
def c8Row : Extr.Row :=
  ⟨"tt0003", "N/A", "Action,Horror", "Title", "Desc", "N/A", "w1", ""⟩

/-- C8 counterexample: for the non-sentinel genre `"Action,Horror"` the
transform emits the single element `["Action,Horror"]`, not the comma-split,
whitespace-trimmed `["Action", "Horror"]` the claim requires — the code
splits on the exact two-character separator `', '` and never trims. -/
theorem c8_split_cex :
    (Extr.transform_data [("w1", "Bob")] c8Row []).map Extr.Doc.genre
        = Except.ok (some ["Action,Horror"])
      ∧ ["Action,Horror"] ≠ ["Action", "Horror"] :=
  ⟨rfl, by decide⟩

/-- A movie row whose genre contains an internal space, for the author
variant's genre handling. -/
def c8AuthorRow : Author.Row :=
  ⟨"tt0006", "Science Fiction", "N/A", "Title", "N/A", "N/A", none, none, "[]"⟩

/-- C8 amended: in `etl/extractor.py`, a sentinel genre/director becomes null
and a non-sentinel value is split on the exact separator `', '` (comma
followed by one space) with the elements otherwise unchanged — no general
whitespace trimming — so `"Action, Horror"` still yields
`["Action", "Horror"]`; the `etl_author.py` variant instead deletes every
space from genre before splitting on `','` (`"Science Fiction"` becomes
`["ScienceFiction"]`). -/
theorem c8_split_amended (db : List (String × String)) (row : Extr.Row)
    (actor_rows : List (String × String)) (d : Extr.Doc)
    (h : Extr.transform_data db row actor_rows = Except.ok d) :
    (row.genre ∈ NONE_PATTERNS → d.genre = none)
      ∧ (row.genre ∉ NONE_PATTERNS → d.genre = some (pySplit row.genre ", "))
      ∧ (row.director ∈ NONE_PATTERNS → d.director = none)
      ∧ (row.director ∉ NONE_PATTERNS → d.director = some (pySplit row.director ", "))
      ∧ pySplit "Action, Horror" ", " = ["Action", "Horror"]
      ∧ (Author.transform_row c8AuthorRow []).map Author.Doc.genre
          = Except.ok ["ScienceFiction"] := by
  unfold Extr.transform_data at h
  cases hw : Extr.get_writers db row.writer row.writers with
  | error e =>
    rw [hw] at h
    simp [error_bind] at h
  | ok wf =>
    rw [hw] at h
    cases hr : Extr.rating_of row.imdb_rating with
    | error e =>
      rw [hr] at h
      simp [ok_bind, error_bind] at h
    | ok q =>
      rw [hr] at h
      simp only [ok_bind, pure_ok, Except.map_ok, Except.ok.injEq] at h
      subst h
      refine ⟨?_, ?_, ?_, ?_, by decide, rfl⟩
      · intro hg
        simp [Extr.transform_value, hg]
      · intro hg
        simp [Extr.transform_value, hg]
      · intro hd
        simp [Extr.transform_value, hd]
      · intro hd
        simp [Extr.transform_value, hd]

/-- A movie row for the witness of the amended C8 theorem. -/
def c8WitnessRow : Extr.Row :=
  ⟨"tt0004", "N/A", "Action, Horror", "Title", "Desc", "N/A", "w1", ""⟩

/-- The document the transform produces for `c8WitnessRow`. -/
def c8WitnessDoc : Extr.Doc :=
  { id := some "tt0004", genre := some ["Action", "Horror"]
    writers := some [Extr.Person.mk (some "w1") (some "Bob")]
    actors := none
    writers_names := some [some "Bob"], actors_names := none
    imdb_rating := none, title := some "Title", director := none
    description := some "Desc" }

/-- Witness for the amended C8 theorem at a concrete row: a non-sentinel
genre is split at `', '` and a sentinel director becomes null. -/
theorem c8_split_amended_witness :
    Extr.transform_data [("w1", "Bob")] c8WitnessRow [] = Except.ok c8WitnessDoc
      ∧ c8WitnessDoc.genre = some ["Action", "Horror"]
      ∧ c8WitnessDoc.director = none :=
  ⟨rfl,
    (c8_split_amended [("w1", "Bob")] c8WitnessRow [] c8WitnessDoc rfl).2.1
      (by decide),
    (c8_split_amended [("w1", "Bob")] c8WitnessRow [] c8WitnessDoc rfl).2.2.1
      (by decide)⟩

/-- A movie row with no actor sub-rows and an empty writers JSON list, for the
author variant. -/
def c7Row : Author.Row :=
  ⟨"tt0005", "Action", "N/A", "Title", "N/A", "N/A", none, none, "[]"⟩

/-- C7 counterexample: in the `etl_author.py` variant a movie whose actor
columns are NULL and whose writer list is empty after filtering produces a
Document carrying the empty list — not null — for `actors`, `writers` and
both `*_names` siblings (the variant's document shape cannot even carry null
there), while the extractor variant returns the claimed `(none, none)`. -/
theorem c7_empty_list_cex :
    Author.transform_row c7Row [] = Except.ok
        { id := "tt0005", genre := ["Action"], writers := [], actors := [],
          actors_names := [], writers_names := [], imdb_rating := none,
          title := "Title", director := none, description := none }
      ∧ Extr.get_actors [] = (none, none) :=
  ⟨rfl, rfl⟩

/-- C7 amended: in the `etl/extractor.py` variant, an actors or writers list
that ends up empty yields null for both the list and its `*_names` sibling,
and a non-empty one yields both as real lists; the `etl_author.py` variant
instead emits empty lists in that situation. -/
theorem c7_empty_null_amended (actor_rows db : List (String × String))
    (writer writers : String) :
    (actor_rows = [] → Extr.get_actors actor_rows = (none, none))
      ∧ (actor_rows ≠ [] →
          ∃ ps ns, Extr.get_actors actor_rows = (some ps, some ns))
      ∧ (∀ fids wf, Extr.get_filter_on_writers writer writers = Except.ok fids →
          Extr.get_writers db writer writers = Except.ok wf →
          ((Extr.queryWriters db fids = [] →
              wf.writers = none ∧ wf.writers_names = none)
            ∧ (Extr.queryWriters db fids ≠ [] →
              ∃ ps ns, wf.writers = some ps ∧ wf.writers_names = some ns))) := by
  refine ⟨?_, ?_, ?_⟩
  · intro he
    subst he
    rfl
  · intro hne
    cases actor_rows with
    | nil => exact absurd rfl hne
    | cons a t =>
      exact ⟨(a :: t).map
          (fun r => Extr.Person.mk (Extr.transform_value r.1) (Extr.transform_value r.2)),
        (a :: t).map (fun r => Extr.transform_value r.2),
        by simp [Extr.get_actors]⟩
  · intro fids wf hf hw
    unfold Extr.get_writers at hw
    rw [hf] at hw
    simp only [ok_bind] at hw
    by_cases hq : Extr.queryWriters db fids = []
    · rw [hq] at hw
      rw [if_neg (by simp)] at hw
      rw [pure_ok] at hw
      cases hw
      exact ⟨fun _ => ⟨rfl, rfl⟩, fun hne => absurd hq hne⟩
    · refine ⟨fun h0 => absurd h0 hq, fun _ => ?_⟩
      cases hrows : Extr.queryWriters db fids with
      | nil => exact absurd hrows hq
      | cons r rs =>
        rw [hrows] at hw
        rw [if_pos (by simp)] at hw
        rw [pure_ok] at hw
        cases hw
        exact ⟨_, _, rfl, rfl⟩

/-- Witness for the amended C7 theorem at concrete inputs: no actor sub-rows
give `(none, none)`, one sub-row gives a pair of real lists, and an empty
writer filter gives null writers fields. -/
theorem c7_empty_null_amended_witness :
    Extr.get_actors ([] : List (String × String)) = (none, none)
      ∧ (∃ ps ns, Extr.get_actors [("a1", "Ann")] = (some ps, some ns))
      ∧ ((⟨none, none, [[]]⟩ : Extr.WritersFetch).writers = none
          ∧ (⟨none, none, [[]]⟩ : Extr.WritersFetch).writers_names = none) :=
  ⟨(c7_empty_null_amended [] [] "" "").1 rfl,
    (c7_empty_null_amended [("a1", "Ann")] [] "" "").2.1 (by decide),
    ((c7_empty_null_amended [] [] "" "").2.2 [] ⟨none, none, [[]]⟩ rfl rfl).1 rfl⟩

/-- A well-formed movie row whose rating parses. -/
def c3GoodRow : Extr.Row :=
  ⟨"tt0001", "8.6", "Action", "Title", "Desc", "N/A", "w1", ""⟩

/-- A movie row whose rating is non-numeric and not a sentinel. -/
def c3BadRow : Extr.Row :=
  ⟨"tt0002", "abc", "Action", "Title", "Desc", "N/A", "w1", ""⟩

/-- The writers table for the C3 rows. -/
def c3Db : List (String × String) := [("w1", "Bob")]

/-- The document the extractor transform produces for `c3GoodRow` alone. -/
def c3GoodDoc : Extr.Doc :=
  { id := some "tt0001", genre := some ["Action"]
    writers := some [Extr.Person.mk (some "w1") (some "Bob")]
    actors := none
    writers_names := some [some "Bob"], actors_names := none
    imdb_rating := some ((43 : ℚ) / 5), title := some "Title", director := none
    description := some "Desc" }

/-- C3 counterexample: a batch of two movie rows whose second carries the
non-numeric, non-sentinel rating `"abc"` makes the whole extraction abort
with `ValueError` — the run crashes: the offending row is not skipped, no
error is recorded, and even the first row's successfully transformed
document is lost, contrary to the claim's never-crash clause. -/
theorem c3_rating_abort_cex :
    Extr.extract_movies c3Db [(c3GoodRow, []), (c3BadRow, [])]
        = Except.error PyErr.valueError
      ∧ Extr.transform_data c3Db c3GoodRow [] = Except.ok c3GoodDoc := by
  constructor
  · with_unfolding_all rfl
  · with_unfolding_all rfl

/-- C3 amended: a sentinel rating gives a null `imdb_rating` and a parseable
decimal string gives its parsed value, but a non-numeric non-sentinel rating
raises `ValueError` and the exception propagates — the whole extraction loop
aborts with it, with no row-level skip and no recorded error; in the
`etl_author.py` variant only `'N/A'` is guarded, so the empty-string sentinel
also raises. -/
theorem c3_rating_amended :
    (∀ s, s ∈ NONE_PATTERNS → Extr.rating_of s = Except.ok none)
      ∧ (∀ s q, parsePyFloat s = some q → s ∉ NONE_PATTERNS →
          Extr.rating_of s = Except.ok (some q))
      ∧ (∀ s, s ∉ NONE_PATTERNS → parsePyFloat s = none →
          Extr.rating_of s = Except.error PyErr.valueError)
      ∧ (∀ db row actor_rows d,
          Extr.transform_data db row actor_rows = Except.ok d →
          Extr.rating_of row.imdb_rating = Except.ok d.imdb_rating)
      ∧ (∀ db pre bad post,
          (∀ rc ∈ pre, ∃ d, Extr.transform_data db rc.1 rc.2 = Except.ok d) →
          Extr.transform_data db bad.1 bad.2 = Except.error PyErr.valueError →
          Extr.extract_movies db (pre ++ bad :: post)
            = Except.error PyErr.valueError)
      ∧ Author.rating_of "" = Except.error PyErr.valueError
      ∧ Author.rating_of "N/A" = Except.ok none := by
  refine ⟨?_, ?_, ?_, ?_, ?_, rfl, rfl⟩
  · intro s hs
    simp [Extr.rating_of, hs]
  · intro s q hp hs
    simp [Extr.rating_of, hs, hp]
  · intro s hs hp
    simp [Extr.rating_of, hs, hp]
  · intro db row actor_rows d h
    unfold Extr.transform_data at h
    cases hw : Extr.get_writers db row.writer row.writers with
    | error e =>
      rw [hw] at h
      simp [error_bind] at h
    | ok wf =>
      rw [hw] at h
      cases hr : Extr.rating_of row.imdb_rating with
      | error e =>
        rw [hr] at h
        simp [ok_bind, error_bind] at h
      | ok q =>
        rw [hr] at h
        simp only [ok_bind, pure_ok, Except.ok.injEq] at h
        subst h
        rfl
  · intro db pre bad post hpre hbad
    exact mapM_append_error _ _ pre bad post hpre hbad

/-- Witness for the amended C3 theorem at concrete inputs: both sentinels map
to null, `"8.6"` parses to `8.6`, `"abc"` raises, and a batch containing the
bad row aborts. -/
theorem c3_rating_amended_witness :
    Extr.rating_of "N/A" = Except.ok none
      ∧ Extr.rating_of "" = Except.ok none
      ∧ Extr.rating_of "8.6" = Except.ok (some ((43 : ℚ) / 5))
      ∧ Extr.rating_of "abc" = Except.error PyErr.valueError
      ∧ Extr.extract_movies c3Db [(c3GoodRow, []), (c3BadRow, [])]
          = Except.error PyErr.valueError
      ∧ Author.rating_of "" = Except.error PyErr.valueError :=
  ⟨c3_rating_amended.1 "N/A" (by decide),
    c3_rating_amended.1 "" (by decide),
    c3_rating_amended.2.1 "8.6" ((43 : ℚ) / 5) (by with_unfolding_all rfl)
      (by decide),
    c3_rating_amended.2.2.1 "abc" (by decide) (by with_unfolding_all rfl),
    c3_rating_amended.2.2.2.2.1 c3Db [(c3GoodRow, [])] (c3BadRow, []) []
      (by
        intro rc hrc
        simp only [List.mem_singleton] at hrc
        subst hrc
        exact ⟨c3GoodDoc, by with_unfolding_all rfl⟩)
      (by with_unfolding_all rfl),
    c3_rating_amended.2.2.2.2.2.1⟩

/-- Filtering the zipped id/name pairs on the name and projecting the names
out equals filtering the name list directly, whenever the two lists have
equal length (the upstream contract of the paired `group_concat` columns). -/
theorem zip_filter_names :
    ∀ (xs ys : List String), xs.length = ys.length →
      (((xs.zip ys).filterMap
          (fun (p : String × String) =>
            if p.2 ≠ "N/A" then some (Author.Person.mk p.1 p.2) else none)).map
        Author.Person.name)
        = ys.filter (fun n => n ≠ "N/A") := by
  intro xs
  induction xs with
  | nil =>
    intro ys h
    cases ys with
    | nil => rfl
    | cons b bs => simp at h
  | cons a as ih =>
    intro ys h
    cases ys with
    | nil => simp at h
    | cons b bs =>
      have h' : as.length = bs.length := by simpa using h
      have ihs := ih bs h'
      by_cases hb : b = "N/A"
      · subst hb
        simpa [List.zip_cons_cons, List.filterMap_cons, List.filter_cons]
          using ihs
      · simpa [List.zip_cons_cons, List.filterMap_cons, List.filter_cons, hb]
          using ihs

/-- C6: the `*_names` lists are the positional name projections of the person
lists, and hence of equal length.  In the `etl_author.py` variant this holds
for `writers` unconditionally and for `actors` under the upstream contract
that the split id and name columns have equal length (SQL NULL actor columns
give two empty lists); in the `etl/extractor.py` variant both lists of a pair
are built from the same sub-rows, so the projection always holds. -/
theorem c6_parallel_lists :
    (∀ row table d, Author.transform_row row table = Except.ok d →
        (d.writers_names = d.writers.map Author.Person.name
            ∧ d.writers_names.length = d.writers.length)
          ∧ ((row.actors_ids = none ∨ row.actors_names = none) →
              d.actors = [] ∧ d.actors_names = [])
          ∧ (∀ ids_s names_s, row.actors_ids = some ids_s →
              row.actors_names = some names_s →
              (pySplit ids_s ",").length = (pySplit names_s ",").length →
              d.actors_names = d.actors.map Author.Person.name
                ∧ d.actors_names.length = d.actors.length))
      ∧ (∀ actor_rows ps ns, Extr.get_actors actor_rows = (some ps, some ns) →
          ns = ps.map Extr.Person.name ∧ ns.length = ps.length)
      ∧ (∀ db writer writers wf,
          Extr.get_writers db writer writers = Except.ok wf →
          (wf.writers = none ∧ wf.writers_names = none)
            ∨ ∃ ps ns, wf.writers = some ps ∧ wf.writers_names = some ns
                ∧ ns = ps.map Extr.Person.name) := by
  refine ⟨?_, ?_, ?_⟩
  · intro row table d h
    unfold Author.transform_row at h
    cases hp : parseIdList row.writers with
    | none =>
      rw [hp] at h
      simp [error_bind] at h
    | some ids =>
      rw [hp] at h
      simp only [ok_bind] at h
      cases hmw : Author.movieWriters table ids with
      | error e =>
        rw [hmw] at h
        simp [error_bind] at h
      | ok mws =>
        rw [hmw] at h
        cases hr : Author.rating_of row.imdb_rating with
        | error e =>
          rw [hr] at h
          simp [ok_bind, error_bind] at h
        | ok q =>
          rw [hr] at h
          simp only [ok_bind, pure_ok, Except.ok.injEq] at h
          subst h
          refine ⟨⟨rfl, by simp⟩, ?_, ?_⟩
          · intro hor
            rcases hor with h1 | h1
            · simp [h1]
            · cases hi : row.actors_ids with
              | none => simp [hi]
              | some v => simp [hi, h1]
          · intro ids_s names_s hi hn hlen
            have hproj := zip_filter_names (pySplit ids_s ",")
              (pySplit names_s ",") hlen
            constructor
            · simp only [hi, hn]
              exact hproj.symm
            · simp only [hi, hn]
              rw [← hproj]
              simp
  · intro actor_rows ps ns h
    cases actor_rows with
    | nil => simp [Extr.get_actors] at h
    | cons a t =>
      unfold Extr.get_actors at h
      rw [if_pos (by simp)] at h
      simp only [Prod.mk.injEq, Option.some.injEq] at h
      obtain ⟨hps, hns⟩ := h
      subst hps
      subst hns
      constructor
      · simp [List.map_map, Function.comp]
      · simp
  · intro db writer writers wf h
    unfold Extr.get_writers at h
    cases hf : Extr.get_filter_on_writers writer writers with
    | error e =>
      rw [hf] at h
      simp [error_bind] at h
    | ok fids =>
      rw [hf] at h
      simp only [ok_bind] at h
      cases hrows : Extr.queryWriters db fids with
      | nil =>
        rw [hrows] at h
        rw [if_neg (by simp)] at h
        rw [pure_ok] at h
        cases h
        exact Or.inl ⟨rfl, rfl⟩
      | cons r rs =>
        rw [hrows] at h
        rw [if_pos (by simp)] at h
        rw [pure_ok] at h
        cases h
        refine Or.inr ⟨_, _, rfl, rfl, ?_⟩
        simp [List.map_map, Function.comp]

/-- A movie row with two actors, the second of whom is named by the sentinel,
and an empty writer list. -/
def c6WitnessRow : Author.Row :=
  ⟨"tt0007", "Drama", "N/A", "Title", "N/A", "N/A",
    some "a1,a2", some "Ann,N/A", "[]"⟩

/-- The document the author transform produces for `c6WitnessRow`. -/
def c6WitnessDoc : Author.Doc :=
  { id := "tt0007", genre := ["Drama"], writers := [],
    actors := [Author.Person.mk "a1" "Ann"], actors_names := ["Ann"],
    writers_names := [], imdb_rating := none, title := "Title",
    director := none, description := none }

/-- Witness for the C6 theorem at concrete inputs: the sentinel-named actor
is dropped from both lists, which stay parallel, and the extractor variant's
pair projects likewise. -/
theorem c6_parallel_lists_witness :
    Author.transform_row c6WitnessRow [] = Except.ok c6WitnessDoc
      ∧ c6WitnessDoc.actors_names = c6WitnessDoc.actors.map Author.Person.name
      ∧ c6WitnessDoc.writers_names = c6WitnessDoc.writers.map Author.Person.name
      ∧ (∃ ps ns, Extr.get_actors [("a1", "Ann")] = (some ps, some ns)
          ∧ ns = ps.map Extr.Person.name) :=
  ⟨rfl,
    ((c6_parallel_lists.1 c6WitnessRow [] c6WitnessDoc rfl).2.2
      "a1,a2" "Ann,N/A" rfl rfl (by decide)).1,
    (c6_parallel_lists.1 c6WitnessRow [] c6WitnessDoc rfl).1.1,
    ⟨[Extr.Person.mk (some "a1") (some "Ann")], [some "Ann"], rfl,
      (c6_parallel_lists.2.1 [("a1", "Ann")]
        [Extr.Person.mk (some "a1") (some "Ann")] [some "Ann"] rfl).1⟩⟩

/-- Unfolding of the writer-enrichment loop at a dangling head id. -/
theorem buildMovieWriters_cons_none (table : List Author.Person)
    (i : String) (rest seen : List String) (acc : List Author.Person)
    (h : Author.lookupWriter table i = none) :
    Author.buildMovieWriters table (i :: rest) seen acc
      = Except.error PyErr.keyError := by
  simp only [Author.buildMovieWriters]
  rw [h]

/-- Unfolding of the writer-enrichment loop at a resolvable head id. -/
theorem buildMovieWriters_cons_some (table : List Author.Person)
    (i : String) (rest seen : List String) (acc : List Author.Person)
    (w : Author.Person) (h : Author.lookupWriter table i = some w) :
    Author.buildMovieWriters table (i :: rest) seen acc
      = (if w.name ≠ "N/A" ∧ ¬ seen.contains i then
          Author.buildMovieWriters table rest (i :: seen) (w :: acc)
        else Author.buildMovieWriters table rest seen acc) := by
  simp only [Author.buildMovieWriters]
  rw [h]

/-- When every id in the parsed list is a key of the writers dict, the
enrichment loop completes without raising. -/
theorem buildMovieWriters_ok (table : List Author.Person) :
    ∀ (ids seen : List String) (acc : List Author.Person),
      (∀ i ∈ ids, (Author.lookupWriter table i).isSome) →
      ∃ ws, Author.buildMovieWriters table ids seen acc = Except.ok ws := by
  intro ids
  induction ids with
  | nil =>
    intro seen acc _
    exact ⟨acc.reverse, rfl⟩
  | cons i rest ih =>
    intro seen acc hall
    have hi := hall i (List.mem_cons_self i rest)
    cases hl : Author.lookupWriter table i with
    | none =>
      rw [hl] at hi
      simp at hi
    | some w =>
      rw [buildMovieWriters_cons_some table i rest seen acc w hl]
      split
      · exact ih _ _ (fun j hj => hall j (List.mem_cons_of_mem _ hj))
      · exact ih _ _ (fun j hj => hall j (List.mem_cons_of_mem _ hj))

/-- When some id in the parsed list is absent from the writers dict, the
enrichment loop raises `KeyError` — the subscript is evaluated before the
already-seen check, so this holds regardless of duplicates or position. -/
theorem buildMovieWriters_err (table : List Author.Person) :
    ∀ (ids seen : List String) (acc : List Author.Person),
      (∃ i ∈ ids, Author.lookupWriter table i = none) →
      Author.buildMovieWriters table ids seen acc
        = Except.error PyErr.keyError := by
  intro ids
  induction ids with
  | nil =>
    intro seen acc h
    obtain ⟨i, hi, _⟩ := h
    cases hi
  | cons j rest ih =>
    intro seen acc h
    obtain ⟨i, hi, hnone⟩ := h
    cases hl : Author.lookupWriter table j with
    | none => exact buildMovieWriters_cons_none table j rest seen acc hl
    | some w =>
      rcases List.mem_cons.mp hi with heq | hmem
      · subst heq
        rw [hl] at hnone
        cases hnone
      · rw [buildMovieWriters_cons_some table j rest seen acc w hl]
        split
        · exact ih _ _ ⟨i, hmem, hnone⟩
        · exact ih _ _ ⟨i, hmem, hnone⟩

/-- C10: for a row whose writers JSON parses to `ids`, the writer enrichment
of `etl_author.py` succeeds whenever every referenced id is a key of the
preloaded writers dict (and the rating does not raise); a single dangling id
makes `_transform_row` raise `KeyError`, and the exception propagates through
the `load` loop — the whole run aborts instead of recording a row-level
error. -/
theorem c10_dangling_writer (row : Author.Row) (table : List Author.Person)
    (ids : List String) (hp : parseIdList row.writers = some ids) :
    ((∀ i ∈ ids, (Author.lookupWriter table i).isSome) →
        (∃ q, Author.rating_of row.imdb_rating = Except.ok q) →
        ∃ d, Author.transform_row row table = Except.ok d)
      ∧ ((∃ i ∈ ids, Author.lookupWriter table i = none) →
          Author.transform_row row table = Except.error PyErr.keyError)
      ∧ (∀ pre post,
          (∀ r ∈ pre, ∃ d, Author.transform_row r table = Except.ok d) →
          (∃ i ∈ ids, Author.lookupWriter table i = none) →
          Author.transform_all (pre ++ row :: post) table
            = Except.error PyErr.keyError) := by
  have herr : (∃ i ∈ ids, Author.lookupWriter table i = none) →
      Author.transform_row row table = Except.error PyErr.keyError := by
    intro hex
    have hmw : Author.movieWriters table ids = Except.error PyErr.keyError :=
      buildMovieWriters_err table ids [] [] hex
    cases ht : Author.transform_row row table with
    | ok d =>
      unfold Author.transform_row at ht
      rw [hp] at ht
      simp only [ok_bind] at ht
      rw [hmw] at ht
      simp [error_bind] at ht
    | error e =>
      unfold Author.transform_row at ht
      rw [hp] at ht
      simp only [ok_bind] at ht
      rw [hmw] at ht
      simp only [error_bind, Except.error.injEq] at ht
      rw [ht]
  refine ⟨?_, herr, ?_⟩
  · intro hall hq'
    obtain ⟨q, hq⟩ := hq'
    obtain ⟨ws, hws⟩ := buildMovieWriters_ok table ids [] [] hall
    have hmw : Author.movieWriters table ids = Except.ok ws := hws
    cases ht : Author.transform_row row table with
    | ok d => exact ⟨d, rfl⟩
    | error e =>
      unfold Author.transform_row at ht
      rw [hp] at ht
      simp only [ok_bind] at ht
      rw [hmw] at ht
      simp only [ok_bind] at ht
      rw [hq] at ht
      simp only [ok_bind, pure_ok] at ht
      simp at ht
  · intro pre post hpre hex
    exact mapM_append_error _ _ pre row post hpre (herr hex)

/-- A movie row whose writers JSON references the single writer id `w1`. -/
def c10Row : Author.Row :=
  ⟨"tt0008", "Action", "N/A", "Title", "N/A", "N/A", none, none,
    "[\x7b\"id\": \"w1\"\x7d]"⟩

/-- Witness for the C10 theorem at a concrete row: with an empty writers dict
the reference to `w1` dangles and the transform raises `KeyError`; with `w1`
present the transform succeeds. -/
theorem c10_dangling_writer_witness :
    Author.transform_row c10Row [] = Except.error PyErr.keyError
      ∧ (∃ d, Author.transform_row c10Row [Author.Person.mk "w1" "Bob"]
          = Except.ok d) :=
  ⟨(c10_dangling_writer c10Row [] ["w1"] (by decide)).2.1
      ⟨"w1", List.mem_singleton.mpr rfl, rfl⟩,
    (c10_dangling_writer c10Row [Author.Person.mk "w1" "Bob"] ["w1"]
        (by decide)).1
      (by
        intro i hi
        simp only [List.mem_singleton] at hi
        subst hi
        rfl)
      ⟨none, rfl⟩⟩

end MovieEtl
